import Mathlib

/-!
Shallow embedding of the cncli CLI-dispatch layer (`src/lib.rs`) and the
read-only block validator (`src/nodeclient/validate.rs`), with theorems
checking the natural-language specification against this code.
-/

/-! ## LedgerSet parsing (`impl FromStr for LedgerSet`, src/lib.rs) -/

/-- `enum LedgerSet { Mark, Set, Go }` -/
inductive LedgerSet where
  | Mark
  | Set
  | Go
deriving Repr, DecidableEq

/-- Rust's `std::string::ParseError` is an alias of `Infallible`: it has no
values, so a `Result<_, ParseError>` can only ever be `Ok`. -/
inductive ParseError where
deriving DecidableEq

/-- `LedgerSet::from_str`: matches on the input string; the catch-all arm
returns `Ok(LedgerSet::Set)`. -/
def LedgerSet.from_str (ledger_set : String) : Except ParseError LedgerSet :=
  if ledger_set = "next" then Except.ok LedgerSet.Mark
  else if ledger_set = "current" then Except.ok LedgerSet.Set
  else if ledger_set = "prev" then Except.ok LedgerSet.Go
  else Except.ok LedgerSet.Set

/-! ## Command-line defaults (structopt attributes, src/lib.rs)

`Ping` and `Sync` declare `#[structopt(long, default_value = "764824073")]`
for `network_magic`; structopt parses the default string with `u32::from_str`
when the caller supplies no value. -/

/-- The `default_value` string of `network_magic` on `Command::Ping`. -/
def pingNetworkMagicDefault : String := "764824073"

/-- The `default_value` string of `network_magic` on `Command::Sync`. -/
def syncNetworkMagicDefault : String := "764824073"

/-- Decimal digit value, as in `u32::from_str`. -/
def digitVal (c : Char) : Option Nat :=
  if '0' ≤ c ∧ c ≤ '9' then some (c.toNat - '0'.toNat) else none

/-- Accumulating decimal parse over the characters. -/
def parseDecAux : List Char → Nat → Option Nat
  | [], acc => some acc
  | c :: cs, acc =>
    match digitVal c with
    | some d => parseDecAux cs (acc * 10 + d)
    | none => none

/-- `u32::from_str`: decimal parse of a nonempty digit string, failing on a
value that overflows 32 bits. -/
def parseU32 (s : String) : Option Nat :=
  if s.isEmpty then none
  else
    match parseDecAux s.toList 0 with
    | some n => if n < 2 ^ 32 then some n else none
    | none => none

/-- structopt's default resolution: when the caller supplies no value, the
declared `default_value` string is parsed instead. -/
def resolveNetworkMagic (defaultStr : String) (supplied : Option String) : Option Nat :=
  parseU32 (supplied.getD defaultStr)

/-! ## Block validator (`src/nodeclient/validate.rs`) -/

/-- `struct Block`: the row shape selected from the `chain` table. -/
structure Block where
  block_number : Int
  slot_number : Int
  hash : String
  prev_hash : String
  leader_vrf : String
  orphaned : Bool
deriving Repr, DecidableEq

/-- The sqlite database as seen through `query_block`: the `chain` table rows
in order, plus whether `Connection::open` and `Connection::close` fail (their
rusqlite error messages). -/
structure DB where
  openError : Option String
  rows : List Block
  closeError : Option String

/-- SQL `LIKE` pattern matching over characters: `%` matches any run of
characters, every other character matches itself (the patterns built by
`validate_block` contain no `_`, so `_` is treated literally). -/
def likeMatch (p : List Char) (s : List Char) : Bool :=
  match p, s with
  | [], [] => true
  | [], _ :: _ => false
  | '%' :: ps, [] => likeMatch ps []
  | '%' :: ps, c :: s2 => likeMatch ps (c :: s2) || likeMatch ('%' :: ps) s2
  | _ :: _, [] => false
  | q :: ps, c :: s2 => q == c && likeMatch ps s2
termination_by (s.length, p.length)

/-- `LIKE` on strings, applied to the `hash` column. -/
def likeMatchStr (pattern : String) (s : String) : Bool :=
  likeMatch pattern.toList s.toList

/-- `db.query_row("SELECT ... FROM chain WHERE hash LIKE ?", ...)`: the first
row whose hash matches, or rusqlite's `QueryReturnedNoRows` error (whose
display text is "Query returned no rows"). -/
def query_row (rows : List Block) (like : String) : Except String Block :=
  match rows.find? (fun b => likeMatchStr like b.hash) with
  | some b => Except.ok b
  | none => Except.error "Query returned no rows"

/-- `query_block`: opens the connection (propagating an open error), runs the
row query, then checks `db.close()` — a close error is returned before
`query_result` is consulted. -/
def query_block (db : DB) (like : String) : Except String Block :=
  match db.openError with
  | some e => Except.error e
  | none =>
    let query_result := query_row db.rows like
    match db.closeError with
    | some e => Except.error e
    | none => query_result

/-- The status word printed for a found block. -/
def statusOf (b : Block) : String := if b.orphaned then "orphaned" else "ok"

/-- The `println!` text of `validate_block`'s `Ok` arm. -/
def jsonFound (b : Block) : String :=
  "\x7b\n \"status\": \"" ++ statusOf b ++
  "\",\n \"block_number\": \"" ++ toString b.block_number ++
  "\",\n \"slot_number\": \"" ++ toString b.slot_number ++
  "\",\n \"hash\": \"" ++ b.hash ++
  "\",\n \"prev_hash\": \"" ++ b.prev_hash ++
  "\",\n \"leader_vrf\": \"" ++ b.leader_vrf ++ "\"\n\x7d"

/-- The `println!` text of `validate_block`'s `Err` arm. -/
def jsonError (e : String) : String :=
  "\x7b\n \"status\": \"error\",\n \"errorMessage\": \"" ++ e ++ "\"\n\x7d"

/-- `validate_block`: builds the pattern `format!("{}%", hash)` and prints one
JSON object depending on `query_block`'s result. -/
def validate_block (db : DB) (hash : String) : String :=
  let like := hash ++ "%"
  match query_block db like with
  | Except.ok block => jsonFound block
  | Except.error e => jsonError e

/-! ## SendTip fan-out (`start`, `Command::Sendtip` branch, src/lib.rs) -/

/-- `mux_protocol::Cmd`, as dispatched by `start`. -/
inductive Cmd where
  | Ping
  | Sync
  | SendTip
deriving Repr, DecidableEq

/-- `struct Pool`: one target in the pooltool config document. -/
structure Pool where
  name : String
  pool_id : String
  host : String
  port : Nat
deriving Repr, DecidableEq

/-- `struct PooltoolConfig`: the loaded JSON document — shared `api_key` and
`node_version`, plus the pool list. It has no network-magic field. -/
structure PooltoolConfig where
  api_key : String
  node_version : String
  pools : List Pool
deriving Repr, DecidableEq

/-- The argument tuple of one `protocols::mux_protocol::start` call. -/
structure SessionArgs where
  cmd : Cmd
  dbPath : String
  host : String
  port : Nat
  networkMagic : Nat
  apiKey : String
  nodeVersion : String
  poolName : String
  poolId : String
deriving Repr, DecidableEq

/-- Modelled from the spec: the outcome of one Handshake + Chain-Sync +
Tip Reporter session run by `protocols::mux_protocol::start` (the `protocols`
module is not part of the sources here). Per the spec, a session's fatal
error is isolated to that session, so the thread returns an outcome rather
than escaping. -/
inductive SessionResult where
  | done
  | failed (msg : String)
deriving Repr, DecidableEq

/-- The `mux_protocol::start` argument tuples built by the `Sendtip` branch:
one per pool, in config order, with the pool's own host/port/name/id, the
hard-coded mainnet magic `764824073`, an empty db path, and the shared
`api_key` / `node_version` cloned from the config. -/
def sendtipArgs (cfg : PooltoolConfig) : List SessionArgs :=
  cfg.pools.map (fun pool =>
    { cmd := Cmd.SendTip
      dbPath := ""
      host := pool.host
      port := pool.port
      networkMagic := 764824073
      apiKey := cfg.api_key
      nodeVersion := cfg.node_version
      poolName := pool.name
      poolId := pool.pool_id })

/-- Modelled from the spec: the `Sendtip` branch spawns one thread per pool
running `mux_protocol::start` on that pool's arguments, then joins every
handle. The network behaviour is abstracted as an oracle `net` from session
arguments to that session's outcome; joining all threads collects one outcome
per pool. -/
def runSendtip (net : SessionArgs → SessionResult) (cfg : PooltoolConfig) :
    List SessionResult :=
  (sendtipArgs cfg).map net

/-- A concrete two-pool config document for exercising the SendTip fan-out. -/
def sampleConfig : PooltoolConfig :=
  ⟨"key", "1.0", [⟨"poolA", "idA", "h1", 3001⟩, ⟨"poolB", "idB", "h2", 3001⟩]⟩

/-- The session arguments built for `sampleConfig`'s first pool. -/
def sampleArgsA : SessionArgs :=
  ⟨Cmd.SendTip, "", "h1", 3001, 764824073, "key", "1.0", "poolA", "idA"⟩

/-- An oracle under which every session succeeds. -/
def allGood : SessionArgs → SessionResult := fun _ => SessionResult.done

/-- An oracle under which every session except the one to host "h1" fails. -/
def failOthers : SessionArgs → SessionResult := fun a =>
  if a.host = "h1" then SessionResult.done else SessionResult.failed "connection refused"

/-! ## Theorems -/

/-- C2: every input string other than "next", "current", "prev" parses to the
"current"-epoch value `LedgerSet::Set`, and parsing never returns an error
for any input string. -/
theorem ledgerset_fallback_current (s : String)
    (h1 : s ≠ "next") (h2 : s ≠ "current") (h3 : s ≠ "prev") :
    LedgerSet.from_str s = Except.ok LedgerSet.Set ∧
    ∀ t : String, ∃ v : LedgerSet, LedgerSet.from_str t = Except.ok v := by
  constructor
  · simp [LedgerSet.from_str, h1, h2, h3]
  · intro t
    by_cases ha : t = "next" <;> by_cases hb : t = "current" <;>
      by_cases hc : t = "prev" <;> simp [LedgerSet.from_str, ha, hb, hc]

/-- Witness for C2 at the concrete input "bogus". -/
theorem ledgerset_fallback_current_witness :
    LedgerSet.from_str "bogus" = Except.ok LedgerSet.Set ∧
    ∀ t : String, ∃ v : LedgerSet, LedgerSet.from_str t = Except.ok v :=
  ledgerset_fallback_current "bogus" (by decide) (by decide) (by decide)

/-- C7: with no caller-supplied network magic, Ping and Sync both resolve the
structopt default string to the mainnet magic 764824073. -/
theorem ping_sync_default_network_magic :
    resolveNetworkMagic pingNetworkMagicDefault none = some 764824073 ∧
    resolveNetworkMagic syncNetworkMagicDefault none = some 764824073 := by
  constructor <;> decide

/-- C3: when open and close succeed and the LIKE query finds a stored block,
the validator prints the JSON object whose status is "orphaned" exactly when
the block's orphaned flag is set and "ok" otherwise, together with the
block_number, slot_number, hash, prev_hash and leader_vrf fields. -/
theorem validate_found_status_and_fields (db : DB) (hash : String) (b : Block)
    (hopen : db.openError = none) (hclose : db.closeError = none)
    (hfound : db.rows.find? (fun r => likeMatchStr (hash ++ "%") r.hash) = some b) :
    validate_block db hash =
      "\x7b\n \"status\": \"" ++ (if b.orphaned then "orphaned" else "ok") ++
      "\",\n \"block_number\": \"" ++ toString b.block_number ++
      "\",\n \"slot_number\": \"" ++ toString b.slot_number ++
      "\",\n \"hash\": \"" ++ b.hash ++
      "\",\n \"prev_hash\": \"" ++ b.prev_hash ++
      "\",\n \"leader_vrf\": \"" ++ b.leader_vrf ++ "\"\n\x7d" := by
  simp [validate_block, query_block, query_row, hopen, hclose, hfound, jsonFound, statusOf]

/-- Witness for C3 at a concrete one-row store holding an orphaned block. -/
theorem validate_found_status_and_fields_witness :
    validate_block ⟨none, [⟨5, 100, "abc123", "000", "deadbeef", true⟩], none⟩ "abc1" =
      "\x7b\n \"status\": \"" ++ (if (true : Bool) then "orphaned" else "ok") ++
      "\",\n \"block_number\": \"" ++ toString (5 : Int) ++
      "\",\n \"slot_number\": \"" ++ toString (100 : Int) ++
      "\",\n \"hash\": \"" ++ "abc123" ++
      "\",\n \"prev_hash\": \"" ++ "000" ++
      "\",\n \"leader_vrf\": \"" ++ "deadbeef" ++ "\"\n\x7d" :=
  validate_found_status_and_fields
    ⟨none, [⟨5, 100, "abc123", "000", "deadbeef", true⟩], none⟩ "abc1"
    ⟨5, 100, "abc123", "000", "deadbeef", true⟩ rfl rfl
    (by simp [List.find?, likeMatchStr, likeMatch])

/-- C4: whenever the block lookup fails — with any error `e`, be it no
matching row or a storage error — the validator prints exactly the
status/errorMessage JSON object carrying the error's text, with no block
fields. -/
theorem validate_error_output (db : DB) (hash e : String)
    (h : query_block db (hash ++ "%") = Except.error e) :
    validate_block db hash =
      "\x7b\n \"status\": \"error\",\n \"errorMessage\": \"" ++ e ++ "\"\n\x7d" := by
  simp [validate_block, h, jsonError]

/-- Witness for C4 at an empty store: the not-found error text is printed. -/
theorem validate_error_output_witness :
    validate_block ⟨none, [], none⟩ "abc1" =
      "\x7b\n \"status\": \"error\",\n \"errorMessage\": \"" ++
      "Query returned no rows" ++ "\"\n\x7d" :=
  validate_error_output ⟨none, [], none⟩ "abc1" "Query returned no rows" rfl

/-- C6: the LIKE lookup applies no filter on the orphaned column: a found
block is a full stored record, and rewriting every row's orphaned flag in the
store changes neither which row is found nor anything but that flag in the
result — ok/orphaned interpretation happens in `validate_block`, after the
record is returned. -/
theorem query_block_no_orphaned_filter (db : DB) (like : String) (f : Bool → Bool) (b : Block)
    (h : query_block db like = Except.ok b) :
    b ∈ db.rows ∧
    query_block { db with rows := db.rows.map (fun r => { r with orphaned := f r.orphaned }) } like
      = Except.ok { b with orphaned := f b.orphaned } := by
  cases hopen : db.openError with
  | some e => simp [query_block, hopen] at h
  | none =>
    cases hclose : db.closeError with
    | some e => simp [query_block, hopen, hclose] at h
    | none =>
      have hq : query_row db.rows like = Except.ok b := by
        simpa [query_block, hopen, hclose] using h
      have hfind : db.rows.find? (fun r => likeMatchStr like r.hash) = some b := by
        unfold query_row at hq
        cases hf : db.rows.find? (fun r => likeMatchStr like r.hash) with
        | some c => rw [hf] at hq; cases hq; rfl
        | none => rw [hf] at hq; cases hq
      constructor
      · exact List.mem_of_find?_eq_some hfind
      · simp [query_block, hopen, hclose, query_row, Function.comp_def, hfind]

/-- Witness for C6: an orphaned stored block is found whole, and flipping the
orphaned flags leaves the lookup result otherwise unchanged. -/
theorem query_block_no_orphaned_filter_witness :
    (⟨5, 100, "abc123", "000", "deadbeef", true⟩ : Block) ∈
      ([⟨5, 100, "abc123", "000", "deadbeef", true⟩] : List Block) ∧
    query_block ⟨none, ([⟨5, 100, "abc123", "000", "deadbeef", true⟩] : List Block).map
        (fun r => { r with orphaned := !r.orphaned }), none⟩ "abc1%"
      = Except.ok { (⟨5, 100, "abc123", "000", "deadbeef", true⟩ : Block) with orphaned := !true } :=
  query_block_no_orphaned_filter
    ⟨none, [⟨5, 100, "abc123", "000", "deadbeef", true⟩], none⟩ "abc1%" (fun v => !v)
    ⟨5, 100, "abc123", "000", "deadbeef", true⟩
    (by simp [query_block, query_row, List.find?, likeMatchStr, likeMatch])

/-- C10: with a failing `close`, `query_block` returns the close error even
though the row query itself succeeded, so the found block is reported as a
status "error" JSON object. -/
theorem close_error_masks_found_block (db : DB) (hash e : String) (b : Block)
    (hopen : db.openError = none) (hclose : db.closeError = some e)
    (hfound : db.rows.find? (fun r => likeMatchStr (hash ++ "%") r.hash) = some b) :
    query_row db.rows (hash ++ "%") = Except.ok b ∧
    query_block db (hash ++ "%") = Except.error e ∧
    validate_block db hash =
      "\x7b\n \"status\": \"error\",\n \"errorMessage\": \"" ++ e ++ "\"\n\x7d" := by
  refine ⟨?_, ?_, ?_⟩
  · simp [query_row, hfound]
  · simp [query_block, hopen, hclose]
  · simp [validate_block, query_block, hopen, hclose, jsonError]

/-- Witness for C10: a store whose close fails reports a found block as an
error result. -/
theorem close_error_masks_found_block_witness :
    query_row [⟨5, 100, "abc123", "000", "deadbeef", false⟩] ("abc1" ++ "%")
      = Except.ok ⟨5, 100, "abc123", "000", "deadbeef", false⟩ ∧
    query_block ⟨none, [⟨5, 100, "abc123", "000", "deadbeef", false⟩], some "disk I/O error"⟩
      ("abc1" ++ "%") = Except.error "disk I/O error" ∧
    validate_block ⟨none, [⟨5, 100, "abc123", "000", "deadbeef", false⟩], some "disk I/O error"⟩
      "abc1" =
      "\x7b\n \"status\": \"error\",\n \"errorMessage\": \"" ++ "disk I/O error" ++ "\"\n\x7d" :=
  close_error_masks_found_block
    ⟨none, [⟨5, 100, "abc123", "000", "deadbeef", false⟩], some "disk I/O error"⟩
    "abc1" "disk I/O error" ⟨5, 100, "abc123", "000", "deadbeef", false⟩ rfl rfl
    (by simp [List.find?, likeMatchStr, likeMatch])

/-- C5: in the found output, block_number and slot_number are rendered inside
double quotes: the printed text contains the quoted-value fragments
`"block_number": "<n>"` and `"slot_number": "<n>"`. -/
theorem validate_numbers_rendered_quoted (db : DB) (hash : String) (b : Block)
    (hopen : db.openError = none) (hclose : db.closeError = none)
    (hfound : db.rows.find? (fun r => likeMatchStr (hash ++ "%") r.hash) = some b) :
    (∃ l r, validate_block db hash =
      l ++ ("\"block_number\": \"" ++ toString b.block_number ++ "\"") ++ r) ∧
    (∃ l r, validate_block db hash =
      l ++ ("\"slot_number\": \"" ++ toString b.slot_number ++ "\"") ++ r) := by
  have hv : validate_block db hash = jsonFound b := by
    simp [validate_block, query_block, query_row, hopen, hclose, hfound]
  constructor
  · refine ⟨"\x7b\n \"status\": \"" ++ statusOf b ++ "\",\n ",
      ",\n \"slot_number\": \"" ++ toString b.slot_number ++
      "\",\n \"hash\": \"" ++ b.hash ++
      "\",\n \"prev_hash\": \"" ++ b.prev_hash ++
      "\",\n \"leader_vrf\": \"" ++ b.leader_vrf ++ "\"\n\x7d", ?_⟩
    rw [hv]
    unfold jsonFound
    have h1 : ("\",\n \"block_number\": \"" : String) = "\",\n " ++ "\"block_number\": \"" := by
      decide
    have h2 : ("\",\n \"slot_number\": \"" : String) = "\"" ++ ",\n \"slot_number\": \"" := by
      decide
    rw [h1, h2]
    simp only [String.append_assoc]
  · refine ⟨"\x7b\n \"status\": \"" ++ statusOf b ++
      "\",\n \"block_number\": \"" ++ toString b.block_number ++ "\",\n ",
      ",\n \"hash\": \"" ++ b.hash ++
      "\",\n \"prev_hash\": \"" ++ b.prev_hash ++
      "\",\n \"leader_vrf\": \"" ++ b.leader_vrf ++ "\"\n\x7d", ?_⟩
    rw [hv]
    unfold jsonFound
    have h3 : ("\",\n \"slot_number\": \"" : String) = "\",\n " ++ "\"slot_number\": \"" := by
      decide
    have h4 : ("\",\n \"hash\": \"" : String) = "\"" ++ ",\n \"hash\": \"" := by
      decide
    rw [h3, h4]
    simp only [String.append_assoc]

/-- Witness for C5: a stored block with block_number 5 yields output
containing the quoted fragment. -/
theorem validate_numbers_rendered_quoted_witness :
    (∃ l r, validate_block ⟨none, [⟨5, 100, "abc123", "000", "deadbeef", false⟩], none⟩ "abc1" =
      l ++ ("\"block_number\": \"" ++ toString (5 : Int) ++ "\"") ++ r) ∧
    (∃ l r, validate_block ⟨none, [⟨5, 100, "abc123", "000", "deadbeef", false⟩], none⟩ "abc1" =
      l ++ ("\"slot_number\": \"" ++ toString (100 : Int) ++ "\"") ++ r) :=
  validate_numbers_rendered_quoted
    ⟨none, [⟨5, 100, "abc123", "000", "deadbeef", false⟩], none⟩ "abc1"
    ⟨5, 100, "abc123", "000", "deadbeef", false⟩ rfl rfl
    (by simp [List.find?, likeMatchStr, likeMatch])

/-- C1: the SendTip fan-out runs one session per configured pool and joins
them all (one outcome per pool in the result), and a session's outcome
depends only on the network's behaviour on that session's own arguments: an
oracle that fails every sibling session leaves session j's outcome
unchanged. -/
theorem sendtip_sessions_isolated_join_all (cfg : PooltoolConfig)
    (net net2 : SessionArgs → SessionResult) (j : Nat) (a : SessionArgs)
    (ha : (sendtipArgs cfg)[j]? = some a) (hagree : net a = net2 a) :
    (runSendtip net cfg).length = cfg.pools.length ∧
    (runSendtip net cfg)[j]? = some (net a) ∧
    (runSendtip net cfg)[j]? = (runSendtip net2 cfg)[j]? := by
  refine ⟨by simp [runSendtip, sendtipArgs], ?_, ?_⟩
  · simp [runSendtip, List.getElem?_map, ha]
  · simp [runSendtip, List.getElem?_map, ha, hagree]

/-- Witness for C1: with two pools, failing the second session leaves the
first session's outcome unchanged, and both sessions are joined. -/
theorem sendtip_sessions_isolated_join_all_witness :
    (runSendtip allGood sampleConfig).length = sampleConfig.pools.length ∧
    (runSendtip allGood sampleConfig)[0]? = some (allGood sampleArgsA) ∧
    (runSendtip allGood sampleConfig)[0]? = (runSendtip failOthers sampleConfig)[0]? :=
  sendtip_sessions_isolated_join_all sampleConfig allGood failOthers 0 sampleArgsA
    rfl (by decide)

/-- C8: the Sendtip branch builds exactly one session per configured pool,
with that pool's own host, port, name and pool id, and the shared api
credential and node version from the config document. -/
theorem sendtip_one_session_per_pool (cfg : PooltoolConfig) (j : Nat) (p : Pool)
    (hp : cfg.pools[j]? = some p) :
    (sendtipArgs cfg).length = cfg.pools.length ∧
    (sendtipArgs cfg)[j]? = some
      { cmd := Cmd.SendTip, dbPath := "", host := p.host, port := p.port,
        networkMagic := 764824073, apiKey := cfg.api_key,
        nodeVersion := cfg.node_version, poolName := p.name, poolId := p.pool_id } := by
  constructor
  · simp [sendtipArgs]
  · simp [sendtipArgs, List.getElem?_map, hp]

/-- Witness for C8 at `sampleConfig`'s second pool. -/
theorem sendtip_one_session_per_pool_witness :
    (sendtipArgs sampleConfig).length = sampleConfig.pools.length ∧
    (sendtipArgs sampleConfig)[1]? = some
      { cmd := Cmd.SendTip, dbPath := "", host := "h2", port := 3001,
        networkMagic := 764824073, apiKey := "key", nodeVersion := "1.0",
        poolName := "poolB", poolId := "idB" } :=
  sendtip_one_session_per_pool sampleConfig 1 ⟨"poolB", "idB", "h2", 3001⟩ rfl

/-- C9: every SendTip session is started with the network magic hard-coded to
764824073, whatever the configuration document contains (it has no
network-magic field, so nothing in it can override this). -/
theorem sendtip_network_magic_hardcoded (cfg : PooltoolConfig) (j : Nat) (a : SessionArgs)
    (ha : (sendtipArgs cfg)[j]? = some a) : a.networkMagic = 764824073 := by
  simp [sendtipArgs, List.getElem?_map, Option.map_eq_some'] at ha
  obtain ⟨p, hp, rfl⟩ := ha
  rfl

/-- Witness for C9 at `sampleConfig`'s first pool. -/
theorem sendtip_network_magic_hardcoded_witness :
    sampleArgsA.networkMagic = 764824073 :=
  sendtip_network_magic_hardcoded sampleConfig 0 sampleArgsA rfl
